import Mathlib

/-!
Shallow embedding of the core of the taigaMcpServer repository
(`src/pagination.js`, `src/taigaService.js`): the pagination traversal engine,
the version-guarded mutation protocol, and the attachment pipeline (base64
decoding, data-URI stripping, multi-location file path resolution), together
with proofs of the specification's claims about them.
-/

namespace Pagination

/-!
Embedding of `fetchAllPaginated` (src/pagination.js, lines 14-76).

A page response is classified by the JS code through truthiness and
`Array.isArray` checks on `response` and `response.data`:

```
if (response.data) {
  if (Array.isArray(response.data)) { items = response.data; hasMore = false; }
  else if (response.data.results && Array.isArray(response.data.results)) {
    items = response.data.results; nextUrl = response.data.next; hasMore = !!nextUrl;
  } else { items = response.data.results || []; hasMore = false; }
} else {
  items = Array.isArray(response) ? response : []; hasMore = false;
}
```

The inductives below mirror exactly this case split.  `Response.nullish`
models a `null`/`undefined` response, on which the property access
`response.data` itself throws inside the loop's `try` block (so the `catch`
fires).  `ResultsField.scalar` models a truthy non-array `results` field,
which `allItems.concat(items)` appends as a single element (the source
comment reads "treat as single item or empty").
-/

/-- The `results` field of `response.data` when `response.data` is a truthy
non-array object: missing/falsy, truthy non-array, or an array. -/
inductive ResultsField (α : Type) where
  | absent
  | scalar (v : α)
  | arr (xs : List α)
  deriving DecidableEq, Repr

/-- Shape of one page response, as discriminated by the source. -/
inductive Response (α : Type) where
  /-- `null`/`undefined` response: `response.data` throws, caught by the loop. -/
  | nullish
  /-- `response.data` is an array. -/
  | dataArray (items : List α)
  /-- `response.data` is a truthy non-array object with a `results` field and a
  `next` field (`next` recorded by its truthiness). -/
  | dataObject (results : ResultsField α) (next : Bool)
  /-- `response.data` is falsy and `response` itself is an array. -/
  | bareArray (items : List α)
  /-- `response.data` is falsy and `response` is not an array. -/
  | other
  deriving DecidableEq, Repr

/-- Outcome of one call of the page-fetching function: a response, or a
throw.  A throw is modelled with the truthiness class of the thrown value,
because the loop's `catch` block evaluates `error.message` (line 66): for a
thrown `null`/`undefined` that property access itself throws a `TypeError`
inside the `catch`, which escapes the function — the returned promise
rejects.  For any non-nullish thrown value (an `Error`, a primitive, a plain
object) the access yields a value or `undefined` and the catch breaks the
loop normally. -/
inductive FetchResult (α : Type) where
  | err (nullish : Bool)
  | ok (response : Response α)
  deriving DecidableEq, Repr

/-- The response-classification block of the loop body (lines 29-53): returns
the `items` list and the `hasMore` flag, or `none` when evaluating
`response.data` throws (the `nullish` response; the thrown `TypeError` is an
ordinary error object, so the `catch` handles it normally). -/
def classify {α : Type} : Response α → Option (List α × Bool)
  | .nullish => none
  | .dataArray items => some (items, false)
  | .dataObject (.arr xs) next => some (xs, next)
  | .dataObject (.scalar v) _ => some ([v], false)
  | .dataObject .absent _ => some ([], false)
  | .bareArray items => some (items, false)
  | .other => some ([], false)

/-- The `while (hasMore && currentPage <= maxPages)` loop of
`fetchAllPaginated`, instrumented to also record the page numbers at which
the page-fetching function was invoked (in order).  The loop body appends the
page's items, then breaks unless `hasMore` is set and the page was non-empty
(`if (!hasMore || items.length === 0) break`).  A throw from the fetch (or
from classifying a `null` response) is caught; the `catch` block breaks and
the accumulator is returned — except when the thrown value is
`null`/`undefined`, in which case the catch's own `error.message` access
throws a `TypeError` that escapes: the call rejects, modelled as
`.error ()`.  Since the loop is only re-entered with `hasMore = true`, the
`hasMore` conjunct of the guard is redundant and the guard reduces to
`currentPage <= maxPages`. -/
def fetchLoop {α : Type} (f : Nat → FetchResult α) (maxPages : Nat)
    (currentPage : Nat) (allItems : List α) (calls : List Nat) :
    Except Unit (List α × List Nat) :=
  if h : currentPage ≤ maxPages then
    match f currentPage with
    | .err nullish =>
      if nullish then .error () else .ok (allItems, calls ++ [currentPage])
    | .ok response =>
      match classify response with
      | none => .ok (allItems, calls ++ [currentPage])
      | some (items, hasMore) =>
        if hasMore && !items.isEmpty then
          fetchLoop f maxPages (currentPage + 1) (allItems ++ items)
            (calls ++ [currentPage])
        else
          .ok (allItems ++ items, calls ++ [currentPage])
  else
    .ok (allItems, calls)
termination_by maxPages + 1 - currentPage
decreasing_by omega

/-- `fetchAllPaginated`, instrumented with the trace of invoked page numbers:
`.ok (items, pages)` when the promise resolves (`items` is the returned
array, `pages` the ordered page numbers passed to the page-fetching
function), `.error ()` when it rejects (the escaping `TypeError` above).
The caller-supplied `initialParams` are an opaque passthrough merged into
each page request; only the `page` number varies, so the page-fetching
function is modelled as a function of the page number alone. -/
def fetchAllPaginatedTrace {α : Type} (f : Nat → FetchResult α)
    (maxPages : Nat := 100) : Except Unit (List α × List Nat) :=
  fetchLoop f maxPages 1 [] []

/-- Concrete two-page fetch function used by the C2 witness. -/
def c2fetch : Nat → FetchResult Nat := fun i =>
  if i = 1 then .ok (.dataObject (.arr [10, 11]) true)
  else if i = 2 then .ok (.dataObject (.arr [20]) false)
  else .err false

/-- Page contents of `c2fetch`. -/
def c2pages : Nat → List Nat := fun i => if i = 1 then [10, 11] else [20]

/-- Concrete fetch function used by the C5 witness: one good envelope page,
then a throw (of an ordinary error value) on call 2. -/
def c5fetch : Nat → FetchResult Nat := fun i =>
  if i = 1 then .ok (.dataObject (.arr [7]) true) else .err false

/-! Helper lemmas about the loop: early stop, the two throw outcomes, one
continuing envelope step, one terminal envelope step, and a run of
continuing envelope pages. -/

theorem fetchLoop_stop {α : Type} (f : Nat → FetchResult α) (maxPages currentPage : Nat)
    (acc : List α) (calls : List Nat) (h : maxPages < currentPage) :
    fetchLoop f maxPages currentPage acc calls = .ok (acc, calls) := by
  rw [fetchLoop]
  simp [Nat.not_le.mpr h]

theorem fetchLoop_err {α : Type} (f : Nat → FetchResult α) (maxPages currentPage : Nat)
    (acc : List α) (calls : List Nat) (h : currentPage ≤ maxPages)
    (hf : f currentPage = .err false) :
    fetchLoop f maxPages currentPage acc calls = .ok (acc, calls ++ [currentPage]) := by
  rw [fetchLoop]
  simp [h, hf]

theorem fetchLoop_cont {α : Type} (f : Nat → FetchResult α) (maxPages p : Nat)
    (acc : List α) (calls : List Nat) (xs : List α) (h : p ≤ maxPages)
    (hf : f p = .ok (.dataObject (.arr xs) true)) (hne : xs ≠ []) :
    fetchLoop f maxPages p acc calls
      = fetchLoop f maxPages (p + 1) (acc ++ xs) (calls ++ [p]) := by
  rw [fetchLoop]
  simp [h, hf, classify, hne]

theorem fetchLoop_last {α : Type} (f : Nat → FetchResult α) (maxPages p : Nat)
    (acc : List α) (calls : List Nat) (xs : List α) (h : p ≤ maxPages)
    (hf : f p = .ok (.dataObject (.arr xs) false)) :
    fetchLoop f maxPages p acc calls = .ok (acc ++ xs, calls ++ [p]) := by
  rw [fetchLoop]
  simp [h, hf, classify]

theorem fetchLoop_run {α : Type} (f : Nat → FetchResult α) (maxPages : Nat)
    (pages : Nat → List α) :
    ∀ (n p : Nat) (acc : List α) (calls : List Nat),
      p + n ≤ maxPages + 1 →
      (∀ i, p ≤ i → i < p + n → f i = .ok (.dataObject (.arr (pages i)) true)) →
      (∀ i, p ≤ i → i < p + n → pages i ≠ []) →
      fetchLoop f maxPages p acc calls =
        fetchLoop f maxPages (p + n) (acc ++ ((List.range' p n).map pages).flatten)
          (calls ++ List.range' p n) := by
  intro n
  induction n with
  | zero => intro p acc calls _ _ _; simp
  | succ n ih =>
    intro p acc calls hle hf hne
    rw [fetchLoop_cont f maxPages p acc calls (pages p) (by omega)
      (hf p (le_refl p) (by omega)) (hne p (le_refl p) (by omega))]
    rw [ih (p + 1) (acc ++ pages p) (calls ++ [p]) (by omega)
      (fun i h1 h2 => hf i (by omega) (by omega))
      (fun i h1 h2 => hne i (by omega) (by omega))]
    rw [List.range'_succ]
    simp only [List.map_cons, List.flatten_cons, List.cons_append, List.append_assoc,
      List.singleton_append, List.nil_append]
    have hpn : p + 1 + n = p + (n + 1) := by omega
    rw [hpn]

/-- C2: for a page-fetching function that serves `k ≥ 1` envelope pages, each
with a non-empty `results` array and a truthy `next` indicator on every page
except page `k` (whose `next` is null), `fetchAllPaginated` with
`maxPages ≥ k` resolves to the concatenation of all pages' items in page
order and within-page order, and invokes the page-fetching function exactly
`k` times, with page numbers `1` through `k` (the trace's second component is
`List.range' 1 k = [1, ..., k]`). -/
theorem fetchAllPaginated_envelopes_complete {α : Type} (f : Nat → FetchResult α)
    (pages : Nat → List α) (k maxPages : Nat) (hk : 1 ≤ k) (hmax : k ≤ maxPages)
    (hf : ∀ i, 1 ≤ i → i ≤ k →
      f i = .ok (.dataObject (.arr (pages i)) (decide (i < k))))
    (hne : ∀ i, 1 ≤ i → i ≤ k → pages i ≠ []) :
    fetchAllPaginatedTrace f maxPages
      = .ok (((List.range' 1 k).map pages).flatten, List.range' 1 k) := by
  rw [fetchAllPaginatedTrace]
  rw [fetchLoop_run f maxPages pages (k - 1) 1 [] [] (by omega)
    (fun i h1 h2 => by
      have hi : i < k := by omega
      have heq := hf i h1 (by omega)
      rw [heq]
      simp [hi])
    (fun i h1 h2 => hne i h1 (by omega))]
  have h1k : 1 + (k - 1) = k := by omega
  rw [h1k]
  have hlast : f k = .ok (.dataObject (.arr (pages k)) false) := by
    have heq := hf k hk (le_refl k)
    rw [heq]
    simp
  rw [fetchLoop_last f maxPages k _ _ (pages k) hmax hlast]
  have hrange : List.range' 1 k = List.range' 1 (k - 1) ++ [k] := by
    conv_lhs => rw [show k = (k - 1) + 1 by omega]
    rw [List.range'_1_concat]
    congr 2
  rw [hrange]
  simp

/-- Witness for C2: two envelope pages `[10, 11]` then `[20]`, with `next`
truthy only on page 1 and `maxPages = 3`, resolve to the full concatenation
`[10, 11, 20]` in two calls, pages 1 and 2. -/
theorem fetchAllPaginated_envelopes_complete_witness :
    fetchAllPaginatedTrace c2fetch 3 = .ok ([10, 11, 20], [1, 2]) := by
  have h := fetchAllPaginated_envelopes_complete c2fetch c2pages 2 3 (by decide) (by decide)
    (fun i h1 h2 => by interval_cases i <;> decide)
    (fun i h1 h2 => by interval_cases i <;> decide)
  rw [h]
  rfl

/-- C6: against a runaway endpoint — every page an envelope with non-empty
results and a truthy `next` — `fetchAllPaginated` with maximum `M` invokes
the page-fetching function exactly `M` times (pages `1` through `M`, never
more: the call trace is exactly `List.range' 1 M`) and resolves to the
concatenation of those `M` pages' items. -/
theorem fetchAllPaginated_runaway_bounded {α : Type} (f : Nat → FetchResult α)
    (pages : Nat → List α) (M : Nat)
    (hf : ∀ i, 1 ≤ i → i ≤ M → f i = .ok (.dataObject (.arr (pages i)) true))
    (hne : ∀ i, 1 ≤ i → i ≤ M → pages i ≠ []) :
    fetchAllPaginatedTrace f M
      = .ok (((List.range' 1 M).map pages).flatten, List.range' 1 M) := by
  rw [fetchAllPaginatedTrace]
  rw [fetchLoop_run f M pages M 1 [] [] (by omega)
    (fun i h1 h2 => hf i h1 (by omega))
    (fun i h1 h2 => hne i h1 (by omega))]
  rw [fetchLoop_stop f M (1 + M) _ _ (by omega)]
  simp

/-- Witness for C6: the endpoint that always answers page `i` with envelope
`[i]` and a truthy `next`, under maximum 3, is called exactly on pages
1, 2, 3 and resolves to `[1, 2, 3]`. -/
theorem fetchAllPaginated_runaway_bounded_witness :
    fetchAllPaginatedTrace (fun i => .ok (.dataObject (.arr [i]) true)) 3
      = .ok ([1, 2, 3], [1, 2, 3]) := by
  have h := fetchAllPaginated_runaway_bounded (fun i => .ok (.dataObject (.arr [i]) true))
    (fun i => [i]) 3 (fun i h1 h2 => rfl) (fun i h1 h2 => by simp)
  rw [h]
  rfl

/-- C5: when the page-fetching function serves continuing envelope pages on
calls `1 .. j-1` and throws an error on call `j` (`j ≥ 2`, within the page
bound), `fetchAllPaginated` neither raises nor rejects: it resolves to
exactly the items accumulated from calls `1 .. j-1`, the failing call `j`
being the last one issued.  (A thrown error value is non-nullish, so the
catch block handles it and breaks.) -/
theorem fetchAllPaginated_partial_on_error {α : Type} (f : Nat → FetchResult α)
    (pages : Nat → List α) (j maxPages : Nat) (hj : 2 ≤ j) (hmax : j ≤ maxPages)
    (hf : ∀ i, 1 ≤ i → i < j → f i = .ok (.dataObject (.arr (pages i)) true))
    (hne : ∀ i, 1 ≤ i → i < j → pages i ≠ [])
    (herr : f j = .err false) :
    fetchAllPaginatedTrace f maxPages
      = .ok (((List.range' 1 (j - 1)).map pages).flatten, List.range' 1 j) := by
  rw [fetchAllPaginatedTrace]
  rw [fetchLoop_run f maxPages pages (j - 1) 1 [] [] (by omega)
    (fun i h1 h2 => hf i h1 (by omega))
    (fun i h1 h2 => hne i h1 (by omega))]
  have h1j : 1 + (j - 1) = j := by omega
  rw [h1j]
  rw [fetchLoop_err f maxPages j _ _ hmax herr]
  have hrange : List.range' 1 j = List.range' 1 (j - 1) ++ [j] := by
    conv_lhs => rw [show j = (j - 1) + 1 by omega]
    rw [List.range'_1_concat]
    congr 2
  rw [hrange]
  simp

/-- Witness for C5: one good envelope page `[7]` then a throw on call 2,
under `maxPages = 5`: the result is the partial accumulation `[7]`, with
calls 1 and 2 issued. -/
theorem fetchAllPaginated_partial_on_error_witness :
    fetchAllPaginatedTrace c5fetch 5 = .ok ([7], [1, 2]) := by
  have h := fetchAllPaginated_partial_on_error c5fetch (fun _ => [7]) 2 5 (by decide)
    (by decide) (fun i h1 h2 => by interval_cases i <;> decide)
    (fun i h1 h2 => by simp) (by decide)
  rw [h]
  rfl

end Pagination

namespace Service

/-!
Embedding of the version-guarded mutation protocol of `src/taigaService.js`:
`updateIssue` (lines 371-388), `addComment` (lines 542-575), `getItemVersion`
(lines 677-699), `getItemEndpoint` (lines 651-658), `updateEpic` (lines
1077-1094), `linkStoryToEpic` (lines 1101-1119), `unlinkStoryFromEpic`
(lines 1126-1143), `updateWikiPage` (lines 1234-1251).

Each function reads the target resource fresh (a GET on the resource's path),
builds the PATCH body from the caller-supplied update object, and issues the
PATCH; the embedding returns that PATCH call (path and body).  JS objects are
modelled extensionally as maps from keys to optional values; the spread-merge
`{ ...updateData, version: v }` is key override, the later binding winning.
JS numbers are modelled as `Int` (every version value in play is an integer).
A JSON-serialized payload drops keys bound to `undefined`, so a body key
mapped to `none` is a key absent from the transmitted payload.
-/

/-- A JS value, as far as the protocol inspects one: a number, or any
non-number value (string, boolean, object, `null`), distinguished because
`getItemVersion` branches on `typeof version !== 'number'`. -/
inductive JVal where
  | num (n : Int)
  | str (s : String)
  | boolean (b : Bool)
  | null
  deriving DecidableEq, Repr

/-- A JS object viewed extensionally: each key is bound to a value or absent. -/
def JObj : Type := String → Option JVal

/-- The empty object `{}`. -/
def emptyObj : JObj := fun _ => none

/-- `{ ...o, k: v }` — spread `o`, then bind `k` (the later binding wins).
`v = none` models binding `k` to a read that produced `undefined`, which the
JSON serialization of the payload drops. -/
def setKey (o : JObj) (k : String) (v : Option JVal) : JObj :=
  fun q => if q = k then v else o q

/-- The authenticated transport collaborator: a GET of a path yields the
response's `data` object.  (Client construction — `createAuthenticatedClient`
in `taigaAuth.js` — is the spec's out-of-scope external collaborator.) -/
structure Client where
  get : String → JObj

/-- A PATCH request as transmitted: target path and payload object. -/
structure PatchCall where
  path : String
  body : JObj

/-- Modelled from the spec: `constants.js` (the `API_ENDPOINTS` table) is not
among the provided sources; the endpoint families are opaque distinct path
prefixes.  The claims depend only on the same path being used for the read
and the write inside one invocation, never on the concrete strings. -/
def ISSUES : String := "issues"

/-- Modelled from the spec: epic endpoint family (see `ISSUES`). -/
def EPICS : String := "epics"

/-- Modelled from the spec: user-story endpoint family (see `ISSUES`). -/
def USER_STORIES : String := "userstories"

/-- Modelled from the spec: wiki endpoint family (see `ISSUES`). -/
def WIKI : String := "wiki"

/-- Modelled from the spec: task endpoint family (see `ISSUES`). -/
def TASKS : String := "tasks"

/-- `` `${endpoint}/${id}` `` — the path of one item of an endpoint family. -/
def itemPath (endpoint : String) (id : Int) : String :=
  endpoint ++ "/" ++ toString id

/-- `getIssue(issueId)`: GET the issue's path and return `response.data`. -/
def getIssue (client : Client) (issueId : Int) : JObj :=
  client.get (itemPath ISSUES issueId)

/-- `updateIssue(issueId, updateData)`: read the current issue, then PATCH
`{ ...updateData, version: currentIssue.version }` to the same path. -/
def updateIssue (client : Client) (issueId : Int) (updateData : JObj) : PatchCall :=
  let currentIssue := getIssue client issueId
  let dataWithVersion := setKey updateData "version" (currentIssue "version")
  { path := itemPath ISSUES issueId, body := dataWithVersion }

/-- `getEpic(epicId)`: GET the epic's path and return `response.data`. -/
def getEpic (client : Client) (epicId : Int) : JObj :=
  client.get (itemPath EPICS epicId)

/-- `updateEpic(epicId, updateData)`: read the current epic, then PATCH
`{ ...updateData, version: currentEpic.version }` to the same path. -/
def updateEpic (client : Client) (epicId : Int) (updateData : JObj) : PatchCall :=
  let currentEpic := getEpic client epicId
  let dataWithVersion := setKey updateData "version" (currentEpic "version")
  { path := itemPath EPICS epicId, body := dataWithVersion }

/-- `updateWikiPage(wikiPageId, updateData)`: read the current wiki page,
then PATCH `{ ...updateData, version: currentWiki.data.version }`. -/
def updateWikiPage (client : Client) (wikiPageId : Int) (updateData : JObj) : PatchCall :=
  let currentWiki := client.get (itemPath WIKI wikiPageId)
  let dataWithVersion := setKey updateData "version" (currentWiki "version")
  { path := itemPath WIKI wikiPageId, body := dataWithVersion }

/-- `linkStoryToEpic(userStoryId, epicId)`: read the current user story, then
PATCH `{ epic: epicId, version: currentStory.data.version }`. -/
def linkStoryToEpic (client : Client) (userStoryId epicId : Int) : PatchCall :=
  let currentStory := client.get (itemPath USER_STORIES userStoryId)
  let updateData := setKey (setKey emptyObj "epic" (some (.num epicId))) "version"
    (currentStory "version")
  { path := itemPath USER_STORIES userStoryId, body := updateData }

/-- `unlinkStoryFromEpic(userStoryId)`: read the current user story, then
PATCH `{ epic: null, version: currentStory.data.version }`. -/
def unlinkStoryFromEpic (client : Client) (userStoryId : Int) : PatchCall :=
  let currentStory := client.get (itemPath USER_STORIES userStoryId)
  let updateData := setKey (setKey emptyObj "epic" (some .null)) "version"
    (currentStory "version")
  { path := itemPath USER_STORIES userStoryId, body := updateData }

/-- `getItemEndpoint(itemType)`: the item-kind → endpoint-family table, with
`issue` as the fallback for unrecognized kinds. -/
def getItemEndpoint (itemType : String) : String :=
  if itemType = "issue" then ISSUES
  else if itemType = "user_story" then USER_STORIES
  else if itemType = "task" then TASKS
  else ISSUES

/-- `getItemVersion(itemType, itemId)` (success path): GET the item and
extract `response.data.version`; `if (typeof version !== 'number') return 1`
— the default of 1 when the field is absent or non-numeric.  (The 404/403
error translations rethrow before any write and are not modelled.) -/
def getItemVersion (client : Client) (itemType : String) (itemId : Int) : Int :=
  let endpoint := getItemEndpoint itemType
  let response := client.get (itemPath endpoint itemId)
  match response "version" with
  | some (.num n) => n
  | _ => 1

/-- `addComment(itemType, itemId, commentData)`: obtain the current version
via `getItemVersion`, then PATCH
`{ comment: commentData.comment, version: currentVersion }` to the item's
path — comment creation is itself a version-guarded update. -/
def addComment (client : Client) (itemType : String) (itemId : Int)
    (commentData : JObj) : PatchCall :=
  let currentVersion := getItemVersion client itemType itemId
  let endpoint := getItemEndpoint itemType
  let updateData := setKey (setKey emptyObj "comment" (commentData "comment")) "version"
    (some (.num currentVersion))
  { path := itemPath endpoint itemId, body := updateData }

/-- C1: for every version-guarded update (updateIssue, updateEpic,
updateWikiPage, linkStoryToEpic, unlinkStoryFromEpic, and the
comment-as-update addComment) and every caller-supplied field-change object:
when the read of the target resource performed inside the invocation yields a
numeric `version` `v`, the PATCH payload transmitted by the invocation
contains a `version` field equal to `v`, and the PATCH targets the very path
that was read. -/
theorem version_guard_transmits_fresh_version (client : Client)
    (issueId epicId storyId linkEpicId wikiId itemId : Int) (u commentData : JObj)
    (itemType : String) (v : Int) :
    (client.get (itemPath ISSUES issueId) "version" = some (.num v) →
      (updateIssue client issueId u).body "version" = some (.num v) ∧
      (updateIssue client issueId u).path = itemPath ISSUES issueId) ∧
    (client.get (itemPath EPICS epicId) "version" = some (.num v) →
      (updateEpic client epicId u).body "version" = some (.num v) ∧
      (updateEpic client epicId u).path = itemPath EPICS epicId) ∧
    (client.get (itemPath WIKI wikiId) "version" = some (.num v) →
      (updateWikiPage client wikiId u).body "version" = some (.num v) ∧
      (updateWikiPage client wikiId u).path = itemPath WIKI wikiId) ∧
    (client.get (itemPath USER_STORIES storyId) "version" = some (.num v) →
      (linkStoryToEpic client storyId linkEpicId).body "version" = some (.num v) ∧
      (linkStoryToEpic client storyId linkEpicId).path = itemPath USER_STORIES storyId) ∧
    (client.get (itemPath USER_STORIES storyId) "version" = some (.num v) →
      (unlinkStoryFromEpic client storyId).body "version" = some (.num v) ∧
      (unlinkStoryFromEpic client storyId).path = itemPath USER_STORIES storyId) ∧
    (client.get (itemPath (getItemEndpoint itemType) itemId) "version" = some (.num v) →
      (addComment client itemType itemId commentData).body "version" = some (.num v) ∧
      (addComment client itemType itemId commentData).path
        = itemPath (getItemEndpoint itemType) itemId) := by
  refine ⟨fun h => ⟨?_, rfl⟩, fun h => ⟨?_, rfl⟩, fun h => ⟨?_, rfl⟩,
    fun h => ⟨?_, rfl⟩, fun h => ⟨?_, rfl⟩, fun h => ⟨?_, rfl⟩⟩
  · simp [updateIssue, getIssue, setKey, h]
  · simp [updateEpic, getEpic, setKey, h]
  · simp [updateWikiPage, setKey, h]
  · simp [linkStoryToEpic, setKey, h]
  · simp [unlinkStoryFromEpic, setKey, h]
  · simp [addComment, getItemVersion, setKey, h]

/-- A client whose every GET answers an object with `version: 5`. -/
def v5client : Client :=
  ⟨fun _ => fun k => if k = "version" then some (.num 5) else none⟩

/-- Witness for C1: updating issue 1 against `v5client` with an empty update
object transmits `version: 5`, the value just read. -/
theorem version_guard_witness :
    (updateIssue v5client 1 emptyObj).body "version" = some (.num 5) :=
  ((version_guard_transmits_fresh_version v5client 1 2 3 4 5 6 emptyObj emptyObj
    "issue" 5).1 rfl).1

/-- C10: for updateIssue, updateEpic and updateWikiPage, even when the
caller-supplied field-change object itself binds a `version` key (to any
value `w` other than the fresh one), the transmitted payload carries the
freshly read `version` and not the caller's: the spread places the fresh
version after the caller's fields, so the later binding wins. -/
theorem merge_order_overrides_caller_version (client : Client)
    (issueId epicId wikiId : Int) (u : JObj) (v : Int) (w : JVal)
    (hu : u "version" = some w) (hw : w ≠ .num v)
    (hi : client.get (itemPath ISSUES issueId) "version" = some (.num v))
    (he : client.get (itemPath EPICS epicId) "version" = some (.num v))
    (hk : client.get (itemPath WIKI wikiId) "version" = some (.num v)) :
    ((updateIssue client issueId u).body "version" = some (.num v) ∧
      (updateIssue client issueId u).body "version" ≠ some w) ∧
    ((updateEpic client epicId u).body "version" = some (.num v) ∧
      (updateEpic client epicId u).body "version" ≠ some w) ∧
    ((updateWikiPage client wikiId u).body "version" = some (.num v) ∧
      (updateWikiPage client wikiId u).body "version" ≠ some w) := by
  refine ⟨⟨?_, ?_⟩, ⟨?_, ?_⟩, ⟨?_, ?_⟩⟩ <;>
    simp [updateIssue, getIssue, updateEpic, getEpic, updateWikiPage, setKey,
      hi, he, hk]
  all_goals intro hcontra; exact hw hcontra.symm

/-- An update object carrying a stale `version: 99`. -/
def stale99 : JObj := setKey emptyObj "version" (some (.num 99))

/-- Witness for C10: a caller-supplied `version: 99` is overridden by the
freshly read `version: 5` on the wire. -/
theorem merge_order_witness :
    (updateIssue v5client 1 stale99).body "version" = some (.num 5) ∧
    (updateIssue v5client 1 stale99).body "version" ≠ some (.num 99) :=
  (merge_order_overrides_caller_version v5client 1 2 3 stale99 5 (.num 99)
    rfl (by decide) rfl rfl rfl).1

/-- A client whose every GET answers an object with no `version` field. -/
def noVersionClient : Client := ⟨fun _ => emptyObj⟩

/-- Counterexample to C3: `updateIssue` does NOT substitute the default
version 1 when the fresh read lacks a `version` field — the payload's
`version` key is bound to the (undefined) read value, hence absent from the
transmitted JSON, not `1`.  Only `getItemVersion` (the comment path)
implements the default. -/
theorem update_no_default_version_counterexample :
    (updateIssue noVersionClient 1 emptyObj).body "version" = none ∧
    (updateIssue noVersionClient 1 emptyObj).body "version" ≠ some (.num 1) := by
  constructor
  · rfl
  · decide

/-- C3 as amended: the default-version-1 substitution for an absent or
non-numeric `version` happens only on the comment-as-update path —
`addComment` transmits `version: 1` via `getItemVersion` whenever the read
`version` is not a number — while the direct version-guarded updates
(updateIssue, updateEpic, updateWikiPage, linkStoryToEpic,
unlinkStoryFromEpic) transmit the `version` field exactly as read, leaving it
absent when absent; they still proceed rather than failing. -/
theorem default_version_only_for_comment_updates (client : Client)
    (itemType : String) (itemId issueId epicId storyId linkEpicId wikiId : Int)
    (u commentData : JObj)
    (habs : ∀ n : Int,
      client.get (itemPath (getItemEndpoint itemType) itemId) "version" ≠ some (.num n)) :
    (addComment client itemType itemId commentData).body "version" = some (.num 1) ∧
    (updateIssue client issueId u).body "version"
      = client.get (itemPath ISSUES issueId) "version" ∧
    (updateEpic client epicId u).body "version"
      = client.get (itemPath EPICS epicId) "version" ∧
    (updateWikiPage client wikiId u).body "version"
      = client.get (itemPath WIKI wikiId) "version" ∧
    (linkStoryToEpic client storyId linkEpicId).body "version"
      = client.get (itemPath USER_STORIES storyId) "version" ∧
    (unlinkStoryFromEpic client storyId).body "version"
      = client.get (itemPath USER_STORIES storyId) "version" := by
  have hver : getItemVersion client itemType itemId = 1 := by
    unfold getItemVersion
    cases h : client.get (itemPath (getItemEndpoint itemType) itemId) "version" with
    | none => simp [h]
    | some w =>
      cases w with
      | num n => exact absurd h (habs n)
      | str s => simp [h]
      | boolean b => simp [h]
      | null => simp [h]
  refine ⟨?_, ?_, ?_, ?_, ?_, ?_⟩
  · simp [addComment, setKey, hver]
  · simp [updateIssue, getIssue, setKey]
  · simp [updateEpic, getEpic, setKey]
  · simp [updateWikiPage, setKey]
  · simp [linkStoryToEpic, setKey]
  · simp [unlinkStoryFromEpic, setKey]

/-- Witness for the amended C3: against a client without `version` fields,
`addComment` transmits the default `version: 1`. -/
theorem default_version_only_for_comment_updates_witness :
    (addComment noVersionClient "issue" 1 emptyObj).body "version" = some (.num 1) :=
  (default_version_only_for_comment_updates noVersionClient "issue" 1 2 3 4 5 6
    emptyObj emptyObj (fun _ h => Option.noConfusion h)).1

end Service

namespace Attach

/-!
Embedding of the attachment pipeline of `src/taigaService.js`:
`uploadAttachment` (lines 711-795), `uploadAttachmentFromPath` (path
resolution part, lines 805-877) and `getAttachmentEndpoint` (lines
1003-1010).  JS strings flowing through the pipeline (file data, file names,
base64 payloads) are modelled as `List Char`; file-system paths and error
messages as `String`.  `Buffer.from(data, 'base64')` is modelled with Node's
forgiving semantics: decoding a string never throws — characters outside the
base64 alphabet are ignored and a `'='` terminates decoding — so undecodable
input yields a short (possibly empty) buffer rather than an error.  In
consequence the source's `catch` around the conversion (lines 738-741,
rethrowing `Invalid base64 data`) is unreachable for a validated string
input, and so is the later `error.message.includes('Invalid base64')`
translation branch.
-/

/-- Sextet value of one base64 alphabet character. -/
def b64Index (c : Char) : Option Nat :=
  if 'A' ≤ c ∧ c ≤ 'Z' then some (c.toNat - 'A'.toNat)
  else if 'a' ≤ c ∧ c ≤ 'z' then some (c.toNat - 'a'.toNat + 26)
  else if '0' ≤ c ∧ c ≤ '9' then some (c.toNat - '0'.toNat + 52)
  else if c = '+' then some 62
  else if c = '/' then some 63
  else none

/-- The sextet stream Node's forgiving decoder extracts from a string:
characters outside the base64 alphabet are skipped, and a `'='` padding
character terminates decoding. -/
def b64Sextets : List Char → List Nat
  | [] => []
  | c :: cs =>
    if c = '=' then []
    else
      match b64Index c with
      | some n => n :: b64Sextets cs
      | none => b64Sextets cs

/-- The byte stream of a sextet stream: each complete group of four sextets
yields three bytes; two or three trailing sextets yield one or two bytes; a
single trailing sextet yields no byte. -/
def bytesFromSextets : List Nat → List Nat
  | n1 :: n2 :: n3 :: n4 :: rest =>
    (n1 * 4 + n2 / 16) :: (n2 % 16 * 16 + n3 / 4) :: (n3 % 4 * 64 + n4)
      :: bytesFromSextets rest
  | [n1, n2] => [n1 * 4 + n2 / 16]
  | [n1, n2, n3] => [n1 * 4 + n2 / 16, n2 % 16 * 16 + n3 / 4]
  | _ => []

/-- `Buffer.from(s, 'base64')`: Node's forgiving decoder, which never throws
for a string input — invalid characters are ignored (e.g. `!!` decodes to
the empty buffer) and `'='` terminates decoding.  On strictly valid base64
this agrees byte-for-byte with standard decoding. -/
def base64Decode (s : List Char) : List Nat :=
  bytesFromSextets (b64Sextets s)

/-- `s.includes(',')`. -/
def containsComma : List Char → Bool
  | [] => false
  | c :: cs => c == ',' || containsComma cs

/-- `s.split(',')`: the comma-separated chunks (commas removed; an empty
input yields one empty chunk, like in JS). -/
def splitOnComma : List Char → List (List Char)
  | [] => [[]]
  | c :: cs =>
    if c = ',' then [] :: splitOnComma cs
    else
      match splitOnComma cs with
      | [] => [[c]]
      | g :: gs => (c :: g) :: gs

/-- Lines 736-737: `fileData.includes(',') ? fileData.split(',')[1] :
fileData` — strip a data-URI scheme segment (the text before the first
comma) when one is present. -/
def stripDataUri (fileData : List Char) : List Char :=
  if containsComma fileData then (splitOnComma fileData).getD 1 [] else fileData

/-- A JS argument that is expected to be a string: an actual string, or any
non-string value (the validation only distinguishes the two). -/
inductive JSArg where
  | str (s : List Char)
  | nonString
  deriving DecidableEq, Repr

/-- The multipart form assembled for the upload POST: `object_id`,
`attached_file` (buffer bound to the file name), optional `description`,
best-effort optional `project`. -/
structure Form where
  objectId : Int
  attachedFile : List Nat
  fileName : List Char
  description : Option (List Char)
  project : Option Int
  deriving DecidableEq, Repr

/-- One transport request issued by the upload operation itself (the
authenticated-client acquisition is the out-of-scope auth collaborator). -/
inductive NetCall where
  | get (path : String)
  | post (path : String) (form : Form)
  deriving DecidableEq, Repr

/-- The transport as seen by the best-effort project enrichment
(`getItemData` + `if (itemData && itemData.project)`): for an item path,
`none` means the lookup threw (the error is swallowed); `some p` means the
lookup succeeded and `p` is the item's truthy `project` field when present. -/
structure UploadEnv where
  itemProject : String → Option (Option Int)

/-- Modelled from the spec: `constants.js` (the `API_ENDPOINTS` table) is not
among the provided sources; attachment endpoint families are opaque strings
(see `Service.ISSUES`). -/
def ISSUE_ATTACHMENTS : String := "issues/attachments"

/-- Modelled from the spec: user-story attachment endpoint family. -/
def USERSTORY_ATTACHMENTS : String := "userstories/attachments"

/-- Modelled from the spec: task attachment endpoint family. -/
def TASK_ATTACHMENTS : String := "tasks/attachments"

/-- `getAttachmentEndpoint(itemType)`: item-kind → attachment endpoint
family, with the issue family as fallback. -/
def getAttachmentEndpoint (itemType : String) : String :=
  if itemType = "issue" then ISSUE_ATTACHMENTS
  else if itemType = "user_story" then USERSTORY_ATTACHMENTS
  else if itemType = "task" then TASK_ATTACHMENTS
  else ISSUE_ATTACHMENTS

/-- `uploadAttachment(itemType, itemId, fileData, fileName, mimeType,
description)`: returns the transport requests the operation issues, in
order, together with the result — a thrown validation error, or the
assembled multipart form that the final POST carries.  Mirrors the source's
order: validate `fileData`, validate `fileName`, strip the data-URI segment
and decode base64 (which cannot fail: `Buffer.from` is forgiving, so the
source's decode-failure catch is dead code), then best-effort project
enrichment (one GET whose failure is swallowed), then the POST.  The
`mimeType` parameter is accepted and unused, as in the source.  A falsy
`description` (empty string) is not appended. -/
def uploadAttachment (env : UploadEnv) (itemType : String) (itemId : Int)
    (fileData fileName : JSArg) (_mimeType : Option (List Char))
    (description : Option (List Char)) : List NetCall × Except String Form :=
  let endpoint := getAttachmentEndpoint itemType
  match fileData with
  | .nonString =>
    ([], .error "Invalid file data: fileData must be a base64 encoded string")
  | .str s =>
    if s = [] then
      ([], .error "Invalid file data: fileData must be a base64 encoded string")
    else
      match fileName with
      | .nonString => ([], .error "Invalid file name: fileName is required")
      | .str name =>
        if name = [] then ([], .error "Invalid file name: fileName is required")
        else
          let fileBuffer := base64Decode (stripDataUri s)
          let itemP := Service.itemPath (Service.getItemEndpoint itemType) itemId
          let project : Option Int :=
            match env.itemProject itemP with
            | none => none
            | some p => p
          let form : Form :=
            { objectId := itemId, attachedFile := fileBuffer, fileName := name,
              description :=
                match description with
                | some d => if d = [] then none else some d
                | none => none,
              project := project }
          ([.get itemP, .post endpoint form], .ok form)

/-- The fixed data-URI header `data:<mime>;base64,` preceding a payload. -/
def dataUriHeader (mime : List Char) : List Char :=
  ("data:".toList ++ mime) ++ ";base64,".toList

/-!
Path resolution of `uploadAttachmentFromPath` (lines 820-860): an absolute
path is tested directly; a relative path is probed, in order, under the
current working directory, the home directory, home/Desktop and
home/Downloads, the first existing candidate winning (`none`: no candidate
exists and the operation fails listing every tried path).  `path.resolve` of
a base directory and a relative path is modelled as joining with a slash
(no `..` normalization — the claims do not depend on it). -/

/-- The file-system and environment the resolution consults: working
directory, home directory (`HOME`/`USERPROFILE`/`os.homedir()`), and
existence of a path (`fs.existsSync`). -/
structure PathEnv where
  cwd : String
  home : String
  fileExists : String → Bool

/-- `path.isAbsolute`, POSIX: the path begins with a slash. -/
def isAbsolutePath (p : String) : Bool := p.toList.head? == some '/' 

/-- `path.resolve(base, rel)` for a relative `rel`. -/
def resolveUnder (base rel : String) : String := base ++ "/" ++ rel

/-- The `possiblePaths` array, in source order: cwd, home, home/Desktop,
home/Downloads. -/
def candidatePaths (env : PathEnv) (filePath : String) : List String :=
  [resolveUnder env.cwd filePath,
   resolveUnder env.home filePath,
   resolveUnder (env.home ++ "/Desktop") filePath,
   resolveUnder (env.home ++ "/Downloads") filePath]

/-- The path-resolution step: absolute paths are tested as-is; relative
paths take the first existing candidate (the source's for-loop with break). -/
def resolveFilePath (env : PathEnv) (filePath : String) : Option String :=
  if isAbsolutePath filePath then
    if env.fileExists filePath then some filePath else none
  else
    (candidatePaths env filePath).find? env.fileExists

/-! Lemmas about `includes`/`split` on the comma, leading to the data-URI
stripping property. -/

theorem containsComma_append_comma (xs ys : List Char) :
    containsComma (xs ++ ',' :: ys) = true := by
  induction xs with
  | nil => simp [containsComma]
  | cons c cs ih => simp [containsComma, ih]

theorem splitOnComma_no_comma (xs : List Char) (h : ',' ∉ xs) :
    splitOnComma xs = [xs] := by
  induction xs with
  | nil => rfl
  | cons c cs ih =>
    have hc : c ≠ ',' := fun hc => h (hc ▸ List.mem_cons_self c cs)
    have hcs : ',' ∉ cs := fun hm => h (List.mem_cons_of_mem c hm)
    simp only [splitOnComma, if_neg hc, ih hcs]

theorem splitOnComma_append (xs ys : List Char) (h : ',' ∉ xs) :
    splitOnComma (xs ++ ',' :: ys) = xs :: splitOnComma ys := by
  induction xs with
  | nil => simp [splitOnComma]
  | cons c cs ih =>
    have hc : c ≠ ',' := fun hc => h (hc ▸ List.mem_cons_self c cs)
    have hcs : ',' ∉ cs := fun hm => h (List.mem_cons_of_mem c hm)
    simp only [List.cons_append, splitOnComma, if_neg hc, List.append_eq, ih hcs]

theorem stripDataUri_header (mime payload : List Char)
    (hm : ',' ∉ mime) (hp : ',' ∉ payload) :
    stripDataUri (dataUriHeader mime ++ payload) = payload := by
  have hsplit : dataUriHeader mime ++ payload
      = ("data:".toList ++ mime ++ ";base64".toList) ++ ',' :: payload := by
    simp [dataUriHeader]
  have hpre : ',' ∉ "data:".toList ++ mime ++ ";base64".toList := by
    simp only [List.mem_append]
    rintro ((h | h) | h)
    · revert h; decide
    · exact hm h
    · revert h; decide
  rw [stripDataUri, hsplit, containsComma_append_comma, if_pos rfl,
    splitOnComma_append _ _ hpre, splitOnComma_no_comma _ hp]
  rfl

/-- C7: for a base64 upload whose file data is a data-URI
`data:<mime>;base64,` header followed by the payload (neither mime type nor
base64 payload containing a comma — the base64 alphabet has none), the
stripping step recovers exactly the payload, the binary buffer assembled for
transmission equals the base64 decoding of the payload alone, and the
multipart form actually posted carries that buffer. -/
theorem dataUri_header_stripped (env : UploadEnv) (itemType : String)
    (itemId : Int) (mime payload : List Char)
    (name : List Char) (desc : Option (List Char))
    (hm : ',' ∉ mime) (hp : ',' ∉ payload) (hname : name ≠ []) :
    stripDataUri (dataUriHeader mime ++ payload) = payload ∧
    base64Decode (stripDataUri (dataUriHeader mime ++ payload))
      = base64Decode payload ∧
    ((uploadAttachment env itemType itemId (.str (dataUriHeader mime ++ payload))
        (.str name) none desc).2.map Form.attachedFile)
      = .ok (base64Decode payload) := by
  have hstrip := stripDataUri_header mime payload hm hp
  refine ⟨hstrip, by rw [hstrip], ?_⟩
  have hne : dataUriHeader mime ++ payload ≠ [] := by
    simp [dataUriHeader]
  simp [uploadAttachment, hne, hname, hstrip, Except.map]

/-- An upload environment whose item lookups succeed with no project field. -/
def trivEnv : UploadEnv := ⟨fun _ => some none⟩

/-- Witness for C7: uploading `data:image/png;base64,QUJD` transmits the
bytes of `QUJD` alone — `[65, 66, 67]` (ASCII `ABC`), the header stripped. -/
theorem dataUri_header_stripped_witness :
    ((uploadAttachment trivEnv "issue" 1
        (.str (dataUriHeader "image/png".toList ++ "QUJD".toList))
        (.str "a.png".toList) none none).2.map Form.attachedFile)
      = .ok [65, 66, 67] := by
  have h := (dataUri_header_stripped trivEnv "issue" 1 "image/png".toList
    "QUJD".toList "a.png".toList none (by decide) (by decide) (by decide)).2.2
  rw [h]
  congr 1

/-- The validation failures that ARE detected before any transport request of
the operation: empty or non-string file data and empty or non-string file
name throw with an empty request trace.  (Undecodable base64, the claim's
third family, is not among them — see the theorem below.) -/
theorem upload_validation_before_any_network (env : UploadEnv) (itemType : String)
    (itemId : Int) (fileData fileName : JSArg) (mime desc : Option (List Char))
    (h : fileData = .nonString ∨ fileData = .str [] ∨ fileName = .nonString ∨
      fileName = .str []) :
    (uploadAttachment env itemType itemId fileData fileName mime desc).1 = [] ∧
    ∃ msg, (uploadAttachment env itemType itemId fileData fileName mime desc).2
      = .error msg := by
  cases fileData with
  | nonString =>
    exact ⟨rfl, "Invalid file data: fileData must be a base64 encoded string", rfl⟩
  | str s =>
    by_cases hs : s = []
    · subst hs
      refine ⟨?_, "Invalid file data: fileData must be a base64 encoded string", ?_⟩ <;>
        simp [uploadAttachment]
    · cases fileName with
      | nonString =>
        refine ⟨?_, "Invalid file name: fileName is required", ?_⟩ <;>
          simp [uploadAttachment, hs]
      | str name =>
        by_cases hn : name = []
        · subst hn
          refine ⟨?_, "Invalid file name: fileName is required", ?_⟩ <;>
            simp [uploadAttachment, hs]
        · exfalso
          rcases h with h | h | h | h
          · exact JSArg.noConfusion h
          · exact hs (JSArg.str.inj h)
          · exact JSArg.noConfusion h
          · exact hn (JSArg.str.inj h)

/-- C4 fails on its undecodable-base64 disjunct: `Buffer.from('!!', 'base64')`
does not throw — it leniently yields the empty buffer — so the source's
`Invalid base64 data` catch (lines 738-741) never fires and the upload of the
undecodable `!!` proceeds to the network: the enrichment GET and the upload
POST are both issued (two requests) and the result is a success carrying the
empty buffer, not a validation error.  The dead catch and the dedicated
`Invalid base64` message-translation branch in the source show the claimed
detection is the code's own intent: the claim is right and the code is the
slip. -/
theorem upload_undecodable_proceeds_to_network :
    (uploadAttachment trivEnv "issue" 1 (.str "!!".toList)
      (.str "a.png".toList) none none).1.length = 2 ∧
    (uploadAttachment trivEnv "issue" 1 (.str "!!".toList)
      (.str "a.png".toList) none none).2.map Form.attachedFile = .ok [] := by
  constructor
  · rfl
  · rfl

/-- C8: for a relative upload path, candidates are probed in the fixed order
cwd, home, home/Desktop, home/Downloads (the `candidatePaths` list mirrors
the source's `possiblePaths` array) and the first existing one is selected;
in particular, when the file exists under home/Desktop but under neither the
working directory nor the home directory, resolution succeeds with the
Desktop path — whatever home/Downloads holds. -/
theorem relative_path_desktop_fallback (env : PathEnv) (fp : String)
    (hrel : isAbsolutePath fp = false)
    (h1 : env.fileExists (resolveUnder env.cwd fp) = false)
    (h2 : env.fileExists (resolveUnder env.home fp) = false)
    (h3 : env.fileExists (resolveUnder (env.home ++ "/Desktop") fp) = true) :
    resolveFilePath env fp = some (resolveUnder (env.home ++ "/Desktop") fp) := by
  simp [resolveFilePath, hrel, candidatePaths, List.find?, h1, h2, h3]

/-- A file system where only `/home/u/Desktop/report.pdf` exists. -/
def desktopOnlyEnv : PathEnv :=
  ⟨"/work", "/home/u", fun p => p == "/home/u/Desktop/report.pdf"⟩

/-- Witness for C8: `report.pdf` existing only under `/home/u/Desktop`
resolves to `/home/u/Desktop/report.pdf`. -/
theorem relative_path_desktop_fallback_witness :
    resolveFilePath desktopOnlyEnv "report.pdf" = some "/home/u/Desktop/report.pdf" := by
  have h := relative_path_desktop_fallback desktopOnlyEnv "report.pdf"
    (by decide) (by decide) (by decide) (by decide)
  simpa [desktopOnlyEnv, resolveUnder] using h

end Attach
